import Mathlib

/-!
Verification of `Flounder.Core/src/renderer/swapchain/Swapchain.cpp`.

The C++ class `Flounder::Swapchain` is embedded shallowly:

* Vulkan enumerators become `Nat` constants with the values from `vulkan_core.h`.
* The pure helper functions (`ChooseSwapSurfaceFormat`, `ChooseSwapPresentMode`,
  `ChooseSwapExtent`, the image-count computation in `Create`) become Lean
  functions over lists and naturals; `uint32_t` arithmetic carries an explicit
  `% 2 ^ 32` where overflow matters.
* The stateful methods become explicit state transformers on `SwapchainState`
  (mirroring the member variables `m_swapChainImages`, `m_swapChainImageViews`,
  `m_swapChainFramebuffers`, `m_swapChainImageFormat`, `m_swapChainExtent`,
  `m_swapChain`).  Platform behaviour (what `vkGetSwapchainImagesKHR` etc.
  return) is an explicit `Platform` parameter.
* The opaque handles produced by `vkCreateImageView` / `vkCreateFramebuffer`
  are identified with the creation parameters the code passes in
  (`ImageViewInfo`, `FramebufferInfo`), so "view built from image i" is
  directly observable.
* Teardown methods emit a trace of platform calls (`PlatformCall`) so that
  ordering properties (idle wait before destruction, framebuffers before
  views before chain) can be stated.
* The source indexes `availableFormats[0]` even when the vector may be empty;
  the embedding returns `Option`, with `none` marking that out-of-bounds read.
-/

namespace Flounder

/-! ## Vulkan enumerator values (vulkan_core.h) -/

def VK_FORMAT_UNDEFINED : Nat := 0

def VK_FORMAT_B8G8R8A8_UNORM : Nat := 44

def VK_COLOR_SPACE_SRGB_NONLINEAR_KHR : Nat := 0

def VK_PRESENT_MODE_IMMEDIATE_KHR : Nat := 0

def VK_PRESENT_MODE_MAILBOX_KHR : Nat := 1

def VK_PRESENT_MODE_FIFO_KHR : Nat := 2

/-- `std::numeric_limits<uint32_t>::max()`. -/
def UINT32_MAX : Nat := 2 ^ 32 - 1

/-! ## Data model -/

/-- `VkSurfaceFormatKHR`: a (pixel-format, color-space) pair. -/
structure VkSurfaceFormatKHR where
  format : Nat
  colorSpace : Nat
deriving DecidableEq, Repr

/-- `VkExtent2D`. -/
structure VkExtent2D where
  width : Nat
  height : Nat
deriving DecidableEq, Repr

/-- The fields of `VkSurfaceCapabilitiesKHR` that `Swapchain.cpp` reads. -/
structure VkSurfaceCapabilitiesKHR where
  minImageCount : Nat
  maxImageCount : Nat
  currentExtent : VkExtent2D
  minImageExtent : VkExtent2D
  maxImageExtent : VkExtent2D
  currentTransform : Nat
deriving DecidableEq, Repr

/-- `SwapChainSupportDetails` (declared in Swapchain.hpp, filled by
`QuerySwapChainSupport`). -/
structure SwapChainSupportDetails where
  capabilities : VkSurfaceCapabilitiesKHR
  formats : List VkSurfaceFormatKHR
  presentModes : List Nat
deriving DecidableEq, Repr

/-! ## ConfigurationSelector: the three pure helpers -/

/-- The `for` loop of `ChooseSwapSurfaceFormat` (Swapchain.cpp:189-195):
return the first entry whose format is `VK_FORMAT_B8G8R8A8_UNORM` and whose
color space is `VK_COLOR_SPACE_SRGB_NONLINEAR_KHR`, if any. -/
def findPreferredFormat : List VkSurfaceFormatKHR → Option VkSurfaceFormatKHR
  | [] => none
  | f :: rest =>
    if f.format = VK_FORMAT_B8G8R8A8_UNORM ∧ f.colorSpace = VK_COLOR_SPACE_SRGB_NONLINEAR_KHR then
      some f
    else
      findPreferredFormat rest

/-- `Swapchain::ChooseSwapSurfaceFormat` (Swapchain.cpp:182-198).
On the empty list the C++ falls through to `availableFormats[0]`, an
out-of-bounds read; the embedding returns `none` there. -/
def ChooseSwapSurfaceFormat : List VkSurfaceFormatKHR → Option VkSurfaceFormatKHR
  | [] => none
  | f0 :: rest =>
    if (f0 :: rest).length = 1 ∧ f0.format = VK_FORMAT_UNDEFINED then
      some { format := VK_FORMAT_B8G8R8A8_UNORM, colorSpace := VK_COLOR_SPACE_SRGB_NONLINEAR_KHR }
    else
      match findPreferredFormat (f0 :: rest) with
      | some f => some f
      | none => some f0

/-- The scan loop of `ChooseSwapPresentMode` (Swapchain.cpp:204-215), with
`bestMode` as the accumulator: return mailbox immediately when found,
remember immediate as the fallback, else keep the current best. -/
def presentModeScan : List Nat → Nat → Nat
  | [], bestMode => bestMode
  | m :: rest, bestMode =>
    if m = VK_PRESENT_MODE_MAILBOX_KHR then m
    else if m = VK_PRESENT_MODE_IMMEDIATE_KHR then presentModeScan rest m
    else presentModeScan rest bestMode

/-- `Swapchain::ChooseSwapPresentMode` (Swapchain.cpp:200-218):
scan with `bestMode` initialised to `VK_PRESENT_MODE_FIFO_KHR`. -/
def ChooseSwapPresentMode (availablePresentModes : List Nat) : Nat :=
  presentModeScan availablePresentModes VK_PRESENT_MODE_FIFO_KHR

/-- `Swapchain::ChooseSwapExtent` (Swapchain.cpp:220-235).  The window
dimensions are the `uint32_t` values obtained by casting the
`glfwGetWindowSize` results. -/
def ChooseSwapExtent (capabilities : VkSurfaceCapabilitiesKHR)
    (windowWidth windowHeight : Nat) : VkExtent2D :=
  if capabilities.currentExtent.width ≠ UINT32_MAX then
    capabilities.currentExtent
  else
    { width := max capabilities.minImageExtent.width
        (min capabilities.maxImageExtent.width windowWidth)
      height := max capabilities.minImageExtent.height
        (min capabilities.maxImageExtent.height windowHeight) }

/-- The image-count computation in `Swapchain::Create` (Swapchain.cpp:41-46):
`minImageCount + 1` in `uint32_t` arithmetic, reduced to `maxImageCount`
when that bound is nonzero and exceeded. -/
def requestedImageCount (capabilities : VkSurfaceCapabilitiesKHR) : Nat :=
  let imageCount := (capabilities.minImageCount + 1) % 2 ^ 32
  if capabilities.maxImageCount > 0 ∧ imageCount > capabilities.maxImageCount then
    capabilities.maxImageCount
  else
    imageCount

/-! ## Stateful model -/

/-- The creation parameters `CreateImageViews` passes to `vkCreateImageView`
for one image (Swapchain.cpp:131-144); the resulting opaque handle is
identified with them.  The remaining fields of the C++ `createInfo` are
constants (`viewType = 2D`, identity component swizzle, color aspect,
mip level 0/1, array layer 0/1) and carry no per-image information. -/
structure ImageViewInfo where
  image : Nat
  format : Nat
deriving DecidableEq, Repr

/-- The creation parameters `CreateFramebuffers` passes to
`vkCreateFramebuffer` for one view (Swapchain.cpp:86-93); the resulting
opaque handle is identified with them.  `layers` is the constant 1. -/
structure FramebufferInfo where
  renderPass : Nat
  attachments : List ImageViewInfo
  width : Nat
  height : Nat
deriving DecidableEq, Repr

/-- The platform's side of the API: what the surface queries report, the
chain handle `vkCreateSwapchainKHR` writes, and the image handles the
two-call `vkGetSwapchainImagesKHR` pattern reports after creation (the
platform may allocate a different count than requested). -/
structure Platform where
  capabilities : VkSurfaceCapabilitiesKHR
  formats : List VkSurfaceFormatKHR
  presentModes : List Nat
  chainHandle : Nat
  swapchainImages : List Nat
deriving DecidableEq, Repr

/-- The member variables of `Flounder::Swapchain`. -/
structure SwapchainState where
  swapChain : Nat
  swapChainImages : List Nat
  swapChainImageViews : List ImageViewInfo
  swapChainFramebuffers : List FramebufferInfo
  swapChainImageFormat : Nat
  swapChainExtent : VkExtent2D
deriving DecidableEq, Repr

/-- The constructor `Swapchain::Swapchain` (Swapchain.cpp:6-15): null chain
handle, empty vectors, zero-initialised format and extent. -/
def initialState : SwapchainState :=
  { swapChain := 0
    swapChainImages := []
    swapChainImageViews := []
    swapChainFramebuffers := []
    swapChainImageFormat := 0
    swapChainExtent := { width := 0, height := 0 } }

/-- `Swapchain::QuerySwapChainSupport` (Swapchain.cpp:152-180): the two-call
count-probe/fill pattern leaves `formats` (resp. `presentModes`) as the
default-constructed empty vector when the probed count is zero. -/
def QuerySwapChainSupport (p : Platform) : SwapChainSupportDetails :=
  { capabilities := p.capabilities
    formats := if p.formats.length ≠ 0 then p.formats else []
    presentModes := if p.presentModes.length ≠ 0 then p.presentModes else [] }

/-- `Swapchain::CreateImageViews` (Swapchain.cpp:125-150): resize the view
vector to the image count and fill index `i` with the view created from
`m_swapChainImages[i]` and `m_swapChainImageFormat`. -/
def CreateImageViews (s : SwapchainState) : SwapchainState :=
  { s with
    swapChainImageViews :=
      s.swapChainImages.map fun img =>
        { image := img, format := s.swapChainImageFormat } }

/-- `Swapchain::Create` (Swapchain.cpp:23-76): query support, select the
configuration, create the chain, re-query and store the platform's actual
image handles, store the chosen format and extent, then build the views.
`none` models the out-of-bounds read inside `ChooseSwapSurfaceFormat` when
the platform reports no formats.  The selected present mode and the
requested image count only parametrise the creation call consumed by the
platform; the stored images are the re-queried `p.swapchainImages`.
The framebuffer vector is not touched. -/
def Create (p : Platform) (windowWidth windowHeight : Nat)
    (s : SwapchainState) : Option SwapchainState :=
  let support := QuerySwapChainSupport p
  match ChooseSwapSurfaceFormat support.formats with
  | none => none
  | some surfaceFormat =>
    let extent := ChooseSwapExtent support.capabilities windowWidth windowHeight
    some (CreateImageViews
      { s with
        swapChain := p.chainHandle
        swapChainImages := p.swapchainImages
        swapChainImageFormat := surfaceFormat.format
        swapChainExtent := extent })

/-- `Swapchain::CreateFramebuffers` (Swapchain.cpp:78-99): resize the
framebuffer vector to the view count and fill index `i` with the
framebuffer whose sole attachment is `m_swapChainImageViews[i]`, sized by
the stored extent. -/
def CreateFramebuffers (renderPass : Nat) (s : SwapchainState) : SwapchainState :=
  { s with
    swapChainFramebuffers :=
      s.swapChainImageViews.map fun v =>
        { renderPass := renderPass
          attachments := [v]
          width := s.swapChainExtent.width
          height := s.swapChainExtent.height } }

/-- States reachable from the freshly constructed object by any sequence of
`Create` and `CreateFramebuffers` calls. -/
inductive Reachable : SwapchainState → Prop where
  | init : Reachable initialState
  | create {s s' : SwapchainState} (p : Platform) (w h : Nat) :
      Reachable s → Create p w h s = some s' → Reachable s'
  | framebuffers {s : SwapchainState} (rp : Nat) :
      Reachable s → Reachable (CreateFramebuffers rp s)

/-! ## Teardown traces -/

/-- One platform call issued during teardown. -/
inductive PlatformCall where
  | deviceWaitIdle : PlatformCall
  | destroyFramebuffer : FramebufferInfo → PlatformCall
  | destroyImageView : ImageViewInfo → PlatformCall
  | destroySwapchain : Nat → PlatformCall
deriving DecidableEq, Repr

/-- The platform calls issued by `Swapchain::CleanupFrameBuffers`
(Swapchain.cpp:114-123): `vkDeviceWaitIdle`, then `vkDestroyFramebuffer`
for each stored framebuffer in order. -/
def CleanupFrameBuffersTrace (s : SwapchainState) : List PlatformCall :=
  PlatformCall.deviceWaitIdle ::
    s.swapChainFramebuffers.map PlatformCall.destroyFramebuffer

/-- The member variables after `Swapchain::CleanupFrameBuffers`: the method
assigns no member, so the state is unchanged (in particular the view vector
and the chain handle). -/
def CleanupFrameBuffersState (s : SwapchainState) : SwapchainState := s

/-- The platform calls issued by `Swapchain::Cleanup` (Swapchain.cpp:101-112):
`vkDeviceWaitIdle`, then `vkDestroyImageView` for each stored view in order,
then `vkDestroySwapchainKHR` on the chain handle. -/
def CleanupTrace (s : SwapchainState) : List PlatformCall :=
  PlatformCall.deviceWaitIdle ::
    (s.swapChainImageViews.map PlatformCall.destroyImageView ++
      [PlatformCall.destroySwapchain s.swapChain])

/-- The platform calls issued by the destructor `Swapchain::~Swapchain`
(Swapchain.cpp:17-21): `CleanupFrameBuffers();` then `Cleanup();`. -/
def destructorTrace (s : SwapchainState) : List PlatformCall :=
  CleanupFrameBuffersTrace s ++ CleanupTrace (CleanupFrameBuffersState s)

/-! ## Platform call sites and result checking -/

/-- The Vulkan entry points `Swapchain.cpp` calls. -/
inductive VkFunction where
  | vkCreateSwapchainKHR
  | vkGetSwapchainImagesKHR
  | vkCreateFramebuffer
  | vkDeviceWaitIdle
  | vkDestroyImageView
  | vkDestroySwapchainKHR
  | vkDestroyFramebuffer
  | vkCreateImageView
  | vkGetPhysicalDeviceSurfaceCapabilitiesKHR
  | vkGetPhysicalDeviceSurfaceFormatsKHR
  | vkGetPhysicalDeviceSurfacePresentModesKHR
deriving DecidableEq, Repr

/-- One Vulkan call site in `Swapchain.cpp`: the entry point, the containing
method, the source line, whether the entry point returns a `VkResult`, and
whether the call is wrapped in `GlfwVulkan::ErrorCheck`. -/
structure CallSite where
  func : VkFunction
  callerMethod : String
  line : Nat
  yieldsResult : Bool
  checkedByErrorCheck : Bool
deriving DecidableEq, Repr

/-- Every Vulkan call site in `Swapchain.cpp`, transcribed line by line.
`vkDestroy*` entry points return `void`; all others return `VkResult`. -/
def swapchainCallSites : List CallSite :=
  [ { func := .vkCreateSwapchainKHR, callerMethod := "Create", line := 62,
      yieldsResult := true, checkedByErrorCheck := true }
  , { func := .vkGetSwapchainImagesKHR, callerMethod := "Create", line := 65,
      yieldsResult := true, checkedByErrorCheck := false }
  , { func := .vkGetSwapchainImagesKHR, callerMethod := "Create", line := 67,
      yieldsResult := true, checkedByErrorCheck := false }
  , { func := .vkCreateFramebuffer, callerMethod := "CreateFramebuffers", line := 95,
      yieldsResult := true, checkedByErrorCheck := true }
  , { func := .vkDeviceWaitIdle, callerMethod := "Cleanup", line := 104,
      yieldsResult := true, checkedByErrorCheck := false }
  , { func := .vkDestroyImageView, callerMethod := "Cleanup", line := 108,
      yieldsResult := false, checkedByErrorCheck := false }
  , { func := .vkDestroySwapchainKHR, callerMethod := "Cleanup", line := 111,
      yieldsResult := false, checkedByErrorCheck := false }
  , { func := .vkDeviceWaitIdle, callerMethod := "CleanupFrameBuffers", line := 117,
      yieldsResult := true, checkedByErrorCheck := false }
  , { func := .vkDestroyFramebuffer, callerMethod := "CleanupFrameBuffers", line := 121,
      yieldsResult := false, checkedByErrorCheck := false }
  , { func := .vkCreateImageView, callerMethod := "CreateImageViews", line := 146,
      yieldsResult := true, checkedByErrorCheck := true }
  , { func := .vkGetPhysicalDeviceSurfaceCapabilitiesKHR,
      callerMethod := "QuerySwapChainSupport", line := 157,
      yieldsResult := true, checkedByErrorCheck := false }
  , { func := .vkGetPhysicalDeviceSurfaceFormatsKHR,
      callerMethod := "QuerySwapChainSupport", line := 161,
      yieldsResult := true, checkedByErrorCheck := false }
  , { func := .vkGetPhysicalDeviceSurfaceFormatsKHR,
      callerMethod := "QuerySwapChainSupport", line := 166,
      yieldsResult := true, checkedByErrorCheck := false }
  , { func := .vkGetPhysicalDeviceSurfacePresentModesKHR,
      callerMethod := "QuerySwapChainSupport", line := 171,
      yieldsResult := true, checkedByErrorCheck := false }
  , { func := .vkGetPhysicalDeviceSurfacePresentModesKHR,
      callerMethod := "QuerySwapChainSupport", line := 176,
      yieldsResult := true, checkedByErrorCheck := false } ]

/-! ## Reference definitions from the specification -/

/-- The fixed preferred pair: `VK_FORMAT_B8G8R8A8_UNORM` with
`VK_COLOR_SPACE_SRGB_NONLINEAR_KHR`. -/
def preferredSurfaceFormat : VkSurfaceFormatKHR :=
  { format := VK_FORMAT_B8G8R8A8_UNORM, colorSpace := VK_COLOR_SPACE_SRGB_NONLINEAR_KHR }

/-- Reference definition of the surface-format selection, following the
spec's words: if the sequence is a single entry whose format is the
undefined sentinel, return the fixed preferred pair; otherwise return the
first entry equal to the preferred pair; if none matches, return the first
entry of the sequence. -/
def selectSurfaceFormatRef (formats : List VkSurfaceFormatKHR) : Option VkSurfaceFormatKHR :=
  if formats.length = 1 ∧ formats.map VkSurfaceFormatKHR.format = [VK_FORMAT_UNDEFINED] then
    some preferredSurfaceFormat
  else
    match formats.find? fun f => f = preferredSurfaceFormat with
    | some f => some f
    | none => formats.head?

/-- The index-alignment invariant exactly as claimed over all reachable
states: views parallel to images (built from `image[i]` with the chain's
format), and, whenever the framebuffer sequence is present, framebuffers
parallel to images with `view[i]` as the sole attachment of
`framebuffer[i]`. -/
def indexAlignmentInvariant (s : SwapchainState) : Prop :=
  s.swapChainImageViews.length = s.swapChainImages.length ∧
  (∀ (i img : Nat), s.swapChainImages[i]? = some img →
    s.swapChainImageViews[i]? = some { image := img, format := s.swapChainImageFormat }) ∧
  (s.swapChainFramebuffers ≠ [] →
    s.swapChainFramebuffers.length = s.swapChainImages.length ∧
    ∀ (i : Nat) (v : ImageViewInfo), s.swapChainImageViews[i]? = some v →
      ∃ fb : FramebufferInfo, s.swapChainFramebuffers[i]? = some fb ∧ fb.attachments = [v])

/-! ## Concrete sample inputs for witnesses and counterexamples -/

/-- Capabilities with `minImageCount = 2`, `maxImageCount = 3`. -/
def capsMin2Max3 : VkSurfaceCapabilitiesKHR :=
  { minImageCount := 2, maxImageCount := 3
    currentExtent := { width := 800, height := 600 }
    minImageExtent := { width := 1, height := 1 }
    maxImageExtent := { width := 4096, height := 4096 }
    currentTransform := 0 }

/-- Capabilities with `minImageCount = 2`, `maxImageCount = 0` (unbounded). -/
def capsMin2Max0 : VkSurfaceCapabilitiesKHR :=
  { capsMin2Max3 with maxImageCount := 0 }

/-- Capabilities whose `currentExtent` is defined (width is not the
`UINT32_MAX` sentinel). -/
def capsFixedExtent : VkSurfaceCapabilitiesKHR := capsMin2Max3

/-- Capabilities whose `currentExtent.width` is the `UINT32_MAX` sentinel,
with image extents bounded by `[32, 4096]` on each axis. -/
def capsFreeExtent : VkSurfaceCapabilitiesKHR :=
  { minImageCount := 2, maxImageCount := 0
    currentExtent := { width := UINT32_MAX, height := 600 }
    minImageExtent := { width := 32, height := 32 }
    maxImageExtent := { width := 4096, height := 4096 }
    currentTransform := 0 }

/-- A platform reporting one B8G8R8A8/SRGB format, FIFO only, and one
allocated image handle. -/
def platformOneImage : Platform :=
  { capabilities := capsMin2Max0
    formats := [preferredSurfaceFormat]
    presentModes := [VK_PRESENT_MODE_FIFO_KHR]
    chainHandle := 1
    swapchainImages := [10] }

/-- A second platform answer for a subsequent `Create`: a different chain
handle and two allocated image handles. -/
def platformTwoImages : Platform :=
  { platformOneImage with chainHandle := 2, swapchainImages := [20, 21] }

/-- A platform whose surface-format query reports a zero count. -/
def platformNoFormats : Platform :=
  { platformOneImage with formats := [] }

/-- A platform that allocates two images although the request computed from
`capsMin2Max0` is `2 + 1 = 3`. -/
def platformShortAlloc : Platform :=
  { platformOneImage with swapchainImages := [30, 31] }

/-- The member state after `Create platformOneImage 800 600 initialState`. -/
def stateAfterFirstCreate : SwapchainState :=
  { swapChain := 1
    swapChainImages := [10]
    swapChainImageViews := [{ image := 10, format := VK_FORMAT_B8G8R8A8_UNORM }]
    swapChainFramebuffers := []
    swapChainImageFormat := VK_FORMAT_B8G8R8A8_UNORM
    swapChainExtent := { width := 800, height := 600 } }

/-- The member state after `Create platformOneImage`, then
`CreateFramebuffers 7`, then `Create platformTwoImages`: the framebuffer
vector still holds the framebuffer built from the old view. -/
def stateStaleFramebuffers : SwapchainState :=
  { swapChain := 2
    swapChainImages := [20, 21]
    swapChainImageViews :=
      [{ image := 20, format := VK_FORMAT_B8G8R8A8_UNORM },
       { image := 21, format := VK_FORMAT_B8G8R8A8_UNORM }]
    swapChainFramebuffers :=
      [{ renderPass := 7
         attachments := [{ image := 10, format := VK_FORMAT_B8G8R8A8_UNORM }]
         width := 800, height := 600 }]
    swapChainImageFormat := VK_FORMAT_B8G8R8A8_UNORM
    swapChainExtent := { width := 800, height := 600 } }

/-- A sample image view for exercising the teardown traces. -/
def sampleView : ImageViewInfo := { image := 10, format := VK_FORMAT_B8G8R8A8_UNORM }

/-- A sample framebuffer with `sampleView` as its sole attachment. -/
def sampleFramebuffer : FramebufferInfo :=
  { renderPass := 7, attachments := [sampleView], width := 800, height := 600 }

/-- A populated state with one framebuffer and one view, for exercising the
teardown traces. -/
def sampleTeardownState : SwapchainState :=
  { swapChain := 5
    swapChainImages := [10]
    swapChainImageViews := [sampleView]
    swapChainFramebuffers := [sampleFramebuffer]
    swapChainImageFormat := VK_FORMAT_B8G8R8A8_UNORM
    swapChainExtent := { width := 800, height := 600 } }

/-! ## Lemmas about the present-mode scan -/

/-- If mailbox occurs anywhere in the remaining list, the scan returns
mailbox, whatever the accumulator holds. -/
theorem presentModeScan_of_mailbox_mem :
    ∀ (l : List Nat) (b : Nat), VK_PRESENT_MODE_MAILBOX_KHR ∈ l →
      presentModeScan l b = VK_PRESENT_MODE_MAILBOX_KHR
  | [], _, h => absurd h (List.not_mem_nil _)
  | m :: rest, b, h => by
    by_cases hm : m = VK_PRESENT_MODE_MAILBOX_KHR
    · simp [presentModeScan, hm]
    · have hr : VK_PRESENT_MODE_MAILBOX_KHR ∈ rest := by
        rcases List.mem_cons.mp h with h1 | h1
        · exact absurd h1.symm hm
        · exact h1
      by_cases hi : m = VK_PRESENT_MODE_IMMEDIATE_KHR
      · subst hi
        simpa [presentModeScan, VK_PRESENT_MODE_IMMEDIATE_KHR, VK_PRESENT_MODE_MAILBOX_KHR]
          using presentModeScan_of_mailbox_mem rest VK_PRESENT_MODE_IMMEDIATE_KHR hr
      · simp [presentModeScan, hm, hi, presentModeScan_of_mailbox_mem rest b hr]

/-- If mailbox never occurs, the scan returns immediate when immediate
occurs, and the accumulator otherwise. -/
theorem presentModeScan_of_mailbox_not_mem :
    ∀ (l : List Nat) (b : Nat), VK_PRESENT_MODE_MAILBOX_KHR ∉ l →
      presentModeScan l b =
        if VK_PRESENT_MODE_IMMEDIATE_KHR ∈ l then VK_PRESENT_MODE_IMMEDIATE_KHR else b
  | [], _, _ => by simp [presentModeScan]
  | m :: rest, b, h => by
    have hm : m ≠ VK_PRESENT_MODE_MAILBOX_KHR := fun hc => h (hc ▸ List.mem_cons_self m rest)
    have hr : VK_PRESENT_MODE_MAILBOX_KHR ∉ rest := fun hc => h (List.mem_cons_of_mem m hc)
    by_cases hi : m = VK_PRESENT_MODE_IMMEDIATE_KHR
    · have := presentModeScan_of_mailbox_not_mem rest m hr
      simp [presentModeScan, hm, hi, presentModeScan_of_mailbox_not_mem rest
        VK_PRESENT_MODE_IMMEDIATE_KHR hr]
    · have hmem : (VK_PRESENT_MODE_IMMEDIATE_KHR ∈ m :: rest) ↔
          (VK_PRESENT_MODE_IMMEDIATE_KHR ∈ rest) := by
        constructor
        · intro hc
          rcases List.mem_cons.mp hc with h1 | h1
          · exact absurd h1.symm hi
          · exact h1
        · exact List.mem_cons_of_mem m
      rw [presentModeScan]
      simp only [hm, hi, if_false, if_neg hm, if_neg hi,
        presentModeScan_of_mailbox_not_mem rest b hr, hmem]

/-- C3: `ChooseSwapPresentMode` implements the precedence
mailbox > immediate > FIFO: any sequence containing mailbox yields mailbox
(wherever immediate occurs), a sequence containing immediate but not
mailbox yields immediate, and a sequence containing neither yields FIFO. -/
theorem choose_present_mode_precedence (modes : List Nat) :
    (VK_PRESENT_MODE_MAILBOX_KHR ∈ modes →
      ChooseSwapPresentMode modes = VK_PRESENT_MODE_MAILBOX_KHR) ∧
    (VK_PRESENT_MODE_MAILBOX_KHR ∉ modes → VK_PRESENT_MODE_IMMEDIATE_KHR ∈ modes →
      ChooseSwapPresentMode modes = VK_PRESENT_MODE_IMMEDIATE_KHR) ∧
    (VK_PRESENT_MODE_MAILBOX_KHR ∉ modes → VK_PRESENT_MODE_IMMEDIATE_KHR ∉ modes →
      ChooseSwapPresentMode modes = VK_PRESENT_MODE_FIFO_KHR) := by
  refine ⟨fun h => presentModeScan_of_mailbox_mem modes _ h, fun hm hi => ?_, fun hm hi => ?_⟩
  · rw [ChooseSwapPresentMode, presentModeScan_of_mailbox_not_mem modes _ hm, if_pos hi]
  · rw [ChooseSwapPresentMode, presentModeScan_of_mailbox_not_mem modes _ hm, if_neg hi]

/-- Witness for C3: an immediate mode earlier in the sequence still loses to
mailbox; immediate without mailbox wins; neither present yields FIFO. -/
theorem choose_present_mode_precedence_witness :
    ChooseSwapPresentMode [VK_PRESENT_MODE_IMMEDIATE_KHR, VK_PRESENT_MODE_MAILBOX_KHR] =
      VK_PRESENT_MODE_MAILBOX_KHR ∧
    ChooseSwapPresentMode [VK_PRESENT_MODE_FIFO_KHR, VK_PRESENT_MODE_IMMEDIATE_KHR] =
      VK_PRESENT_MODE_IMMEDIATE_KHR ∧
    ChooseSwapPresentMode [VK_PRESENT_MODE_FIFO_KHR, 3] = VK_PRESENT_MODE_FIFO_KHR :=
  ⟨(choose_present_mode_precedence _).1 (by decide),
   (choose_present_mode_precedence _).2.1 (by decide) (by decide),
   (choose_present_mode_precedence _).2.2 (by decide) (by decide)⟩

/-! ## Surface-format selection -/

/-- The scan loop of `ChooseSwapSurfaceFormat` returns the first entry equal
to the preferred pair. -/
theorem findPreferredFormat_eq_find :
    ∀ l : List VkSurfaceFormatKHR,
      findPreferredFormat l = l.find? fun f => f = preferredSurfaceFormat
  | [] => rfl
  | f :: rest => by
    have hcond : (f.format = VK_FORMAT_B8G8R8A8_UNORM ∧
        f.colorSpace = VK_COLOR_SPACE_SRGB_NONLINEAR_KHR) ↔ f = preferredSurfaceFormat := by
      cases f
      simp [preferredSurfaceFormat, VkSurfaceFormatKHR.mk.injEq, and_comm]
    by_cases h : f = preferredSurfaceFormat
    · subst h
      simp [findPreferredFormat, List.find?, preferredSurfaceFormat]
    · have hn : ¬ (f.format = VK_FORMAT_B8G8R8A8_UNORM ∧
          f.colorSpace = VK_COLOR_SPACE_SRGB_NONLINEAR_KHR) := fun hc => h (hcond.mp hc)
      simp [findPreferredFormat, hn, h, List.find?, findPreferredFormat_eq_find rest]

/-- `ChooseSwapSurfaceFormat` returns a value on every non-empty sequence:
each branch of the function body yields `some`. -/
theorem chooseSwapSurfaceFormat_isSome (fs : List VkSurfaceFormatKHR) (h : fs ≠ []) :
    (ChooseSwapSurfaceFormat fs).isSome = true := by
  cases fs with
  | nil => exact absurd rfl h
  | cons f0 rest =>
    rw [ChooseSwapSurfaceFormat]
    by_cases hs : (f0 :: rest).length = 1 ∧ f0.format = VK_FORMAT_UNDEFINED
    · rw [if_pos hs]; rfl
    · rw [if_neg hs]
      cases findPreferredFormat (f0 :: rest) <;> rfl

/-- C4: on a non-empty format sequence, `ChooseSwapSurfaceFormat` equals the
reference definition transcribed from the spec (singleton undefined
sentinel → fixed preferred pair; else first entry equal to the preferred
pair; else the first entry), and it returns a value. -/
theorem choose_surface_format_refines_spec (formats : List VkSurfaceFormatKHR)
    (h : formats ≠ []) :
    ChooseSwapSurfaceFormat formats = selectSurfaceFormatRef formats ∧
    (ChooseSwapSurfaceFormat formats).isSome = true := by
  cases formats with
  | nil => exact absurd rfl h
  | cons f0 rest =>
    constructor
    · rw [ChooseSwapSurfaceFormat, selectSurfaceFormatRef]
      have hsent : ((f0 :: rest).length = 1 ∧ f0.format = VK_FORMAT_UNDEFINED) ↔
          ((f0 :: rest).length = 1 ∧
            (f0 :: rest).map VkSurfaceFormatKHR.format = [VK_FORMAT_UNDEFINED]) := by
        cases rest <;> simp
      by_cases hs : (f0 :: rest).length = 1 ∧ f0.format = VK_FORMAT_UNDEFINED
      · rw [if_pos hs, if_pos (hsent.mp hs)]
        rfl
      · rw [if_neg hs, if_neg (fun hc => hs (hsent.mpr hc)),
          findPreferredFormat_eq_find (f0 :: rest)]
        cases (f0 :: rest).find? fun f => f = preferredSurfaceFormat <;> simp
    · exact chooseSwapSurfaceFormat_isSome (f0 :: rest) h

/-- Witness for C4: the singleton undefined sentinel, a fallback sequence
with no preferred match, and a sequence with a later preferred match all
agree with the reference definition. -/
theorem choose_surface_format_refines_spec_witness :
    ChooseSwapSurfaceFormat [{ format := VK_FORMAT_UNDEFINED, colorSpace := 5 }] =
      selectSurfaceFormatRef [{ format := VK_FORMAT_UNDEFINED, colorSpace := 5 }] ∧
    ChooseSwapSurfaceFormat
        [{ format := 1, colorSpace := 2 }, { format := 3, colorSpace := 4 }] =
      selectSurfaceFormatRef
        [{ format := 1, colorSpace := 2 }, { format := 3, colorSpace := 4 }] ∧
    ChooseSwapSurfaceFormat [{ format := 1, colorSpace := 2 }, preferredSurfaceFormat] =
      selectSurfaceFormatRef [{ format := 1, colorSpace := 2 }, preferredSurfaceFormat] :=
  ⟨(choose_surface_format_refines_spec _ (by decide)).1,
   (choose_surface_format_refines_spec _ (by decide)).1,
   (choose_surface_format_refines_spec _ (by simp)).1⟩

/-! ## Extent selection -/

/-- C5: when the capabilities report a defined `currentExtent` (width is not
the `UINT32_MAX` sentinel), `ChooseSwapExtent` returns it unchanged whatever
the window-size hint; otherwise it clamps the window dimensions
independently per axis, and the result lies in
`[minImageExtent, maxImageExtent]` on each axis whenever those bounds are
ordered. -/
theorem choose_extent_spec (caps : VkSurfaceCapabilitiesKHR) (w h : Nat) :
    (caps.currentExtent.width ≠ UINT32_MAX →
      ChooseSwapExtent caps w h = caps.currentExtent) ∧
    (caps.currentExtent.width = UINT32_MAX →
      ChooseSwapExtent caps w h =
        { width := max caps.minImageExtent.width (min caps.maxImageExtent.width w)
          height := max caps.minImageExtent.height (min caps.maxImageExtent.height h) } ∧
      (caps.minImageExtent.width ≤ (ChooseSwapExtent caps w h).width ∧
        caps.minImageExtent.height ≤ (ChooseSwapExtent caps w h).height) ∧
      (caps.minImageExtent.width ≤ caps.maxImageExtent.width →
        (ChooseSwapExtent caps w h).width ≤ caps.maxImageExtent.width) ∧
      (caps.minImageExtent.height ≤ caps.maxImageExtent.height →
        (ChooseSwapExtent caps w h).height ≤ caps.maxImageExtent.height)) := by
  constructor
  · intro hdef
    rw [ChooseSwapExtent, if_pos hdef]
  · intro hsent
    have hne : ¬ caps.currentExtent.width ≠ UINT32_MAX := fun hc => hc hsent
    rw [ChooseSwapExtent, if_neg hne]
    refine ⟨rfl, ⟨?_, ?_⟩, fun hle => ?_, fun hle => ?_⟩ <;> simp <;> omega

/-- Witness for C5: a defined extent is returned verbatim (window hint
123×456 ignored); under the sentinel, window 5000×10 is clamped into
`[32, 4096]` per axis, giving 4096×32. -/
theorem choose_extent_spec_witness :
    ChooseSwapExtent capsFixedExtent 123 456 = { width := 800, height := 600 } ∧
    ChooseSwapExtent capsFreeExtent 5000 10 = { width := 4096, height := 32 } := by
  constructor
  · have h := (choose_extent_spec capsFixedExtent 123 456).1 (by decide)
    rw [h]; decide
  · have h := ((choose_extent_spec capsFreeExtent 5000 10).2 (by decide)).1
    rw [h]; decide

/-! ## Image-count selection -/

/-- C6: the requested image count is `minImageCount + 1`, reduced to
`maxImageCount` exactly when that bound is nonzero and exceeded; and for a
capability record with ordered bounds and nonzero `maxImageCount` the
result lies in `[minImageCount, maxImageCount]`.  The hypothesis excludes
`uint32_t` wrap-around of `minImageCount + 1`. -/
theorem requested_image_count_spec (caps : VkSurfaceCapabilitiesKHR)
    (hnof : caps.minImageCount + 1 < 2 ^ 32) :
    (requestedImageCount caps =
      if caps.maxImageCount ≠ 0 ∧ caps.minImageCount + 1 > caps.maxImageCount then
        caps.maxImageCount
      else
        caps.minImageCount + 1) ∧
    (0 < caps.maxImageCount → caps.minImageCount ≤ caps.maxImageCount →
      caps.minImageCount ≤ requestedImageCount caps ∧
      requestedImageCount caps ≤ caps.maxImageCount) := by
  have hmain : requestedImageCount caps =
      if caps.maxImageCount ≠ 0 ∧ caps.minImageCount + 1 > caps.maxImageCount then
        caps.maxImageCount
      else
        caps.minImageCount + 1 := by
    rw [requestedImageCount]
    simp only [Nat.mod_eq_of_lt hnof]
    split_ifs <;> omega
  refine ⟨hmain, fun hpos hle => ?_⟩
  rw [hmain]
  split_ifs <;> omega

/-- Witness for C6: `min = 2, max = 3` requests 3; `min = 2, max = 0`
(unbounded) requests 3; with `max = 3` nonzero the result is within
`[2, 3]`. -/
theorem requested_image_count_spec_witness :
    requestedImageCount capsMin2Max3 = 3 ∧
    requestedImageCount capsMin2Max0 = 3 ∧
    2 ≤ requestedImageCount capsMin2Max3 ∧ requestedImageCount capsMin2Max3 ≤ 3 := by
  have h1 := requested_image_count_spec capsMin2Max3 (by decide)
  have h2 := requested_image_count_spec capsMin2Max0 (by decide)
  have hb := h1.2 (by decide) (by decide)
  refine ⟨?_, ?_, hb.1, hb.2⟩
  · rw [h1.1]; decide
  · rw [h2.1]; decide

/-! ## Partiality of the surface-format chooser -/

/-- C9: a platform reporting a zero format count makes
`QuerySwapChainSupport` hand an empty format sequence to
`ChooseSwapSurfaceFormat`; on the empty sequence the function reaches the
out-of-bounds read of element 0 (modelled as `none`), and on every
non-empty sequence it is total. -/
theorem choose_surface_format_partiality :
    (∀ p : Platform, p.formats = [] → (QuerySwapChainSupport p).formats = []) ∧
    ChooseSwapSurfaceFormat [] = none ∧
    (∀ fs : List VkSurfaceFormatKHR, fs ≠ [] →
      (ChooseSwapSurfaceFormat fs).isSome = true) := by
  refine ⟨fun p hp => ?_, rfl, fun fs hfs => ?_⟩
  · simp [QuerySwapChainSupport, hp]
  · exact chooseSwapSurfaceFormat_isSome fs hfs

/-- Witness for C9: the concrete platform with no formats yields the empty
sequence, and the chooser is defined on a concrete singleton. -/
theorem choose_surface_format_partiality_witness :
    (QuerySwapChainSupport platformNoFormats).formats = [] ∧
    (ChooseSwapSurfaceFormat [preferredSurfaceFormat]).isSome = true :=
  ⟨choose_surface_format_partiality.1 platformNoFormats rfl,
   choose_surface_format_partiality.2.2 [preferredSurfaceFormat] (by simp)⟩

/-! ## Re-query of the allocated image handles -/

/-- C7: whenever `Create` succeeds, the stored image sequence is exactly the
re-queried platform answer `p.swapchainImages` — its length is the
platform's count, independent of the requested count computed from the
capabilities. -/
theorem create_stores_requeried_images (p : Platform) (w h : Nat)
    (s0 s : SwapchainState) (hc : Create p w h s0 = some s) :
    s.swapChainImages = p.swapchainImages ∧
    s.swapChainImages.length = p.swapchainImages.length := by
  rw [Create] at hc
  cases hcf : ChooseSwapSurfaceFormat (QuerySwapChainSupport p).formats with
  | none => rw [hcf] at hc; cases hc
  | some sf =>
    rw [hcf] at hc
    cases hc
    exact ⟨rfl, rfl⟩

/-- Witness for C7: `platformShortAlloc` advertises `min = 2, max = 0`, so
the requested count is 3, yet the platform allocates only two images; the
stored sequence is the platform's two handles, not three. -/
theorem create_stores_requeried_images_witness :
    (∃ s : SwapchainState, Create platformShortAlloc 800 600 initialState = some s ∧
      s.swapChainImages = [30, 31] ∧ s.swapChainImages.length = 2) ∧
    requestedImageCount platformShortAlloc.capabilities = 3 := by
  constructor
  · cases hc : Create platformShortAlloc 800 600 initialState with
    | none => exact absurd hc (by decide)
    | some s =>
      have h := create_stores_requeried_images platformShortAlloc 800 600 initialState s hc
      exact ⟨s, rfl, h.1, by rw [h.2]; rfl⟩
  · decide

/-! ## Teardown ordering -/

/-- In a trace whose first call is the device-idle wait, that wait precedes
every other call. -/
theorem head_waitIdle_precedes {t : List PlatformCall}
    (ht : t.head? = some PlatformCall.deviceWaitIdle) :
    ∀ (i : Nat) (c : PlatformCall), t[i]? = some c → c ≠ PlatformCall.deviceWaitIdle →
      ∃ j, j < i ∧ t[j]? = some PlatformCall.deviceWaitIdle := by
  intro i c hc hne
  cases t with
  | nil => simp at hc
  | cons a t' =>
    have ha : a = PlatformCall.deviceWaitIdle := by simpa using ht
    cases i with
    | zero =>
      have hca : c = a := by simpa using hc.symm
      exact absurd (hca.trans ha) hne
    | succ n => exact ⟨0, Nat.succ_pos n, by simp [ha]⟩

/-- C1: teardown runs in two tiers.  `CleanupFrameBuffers` first issues the
device-idle wait, then destroys each stored framebuffer and nothing else
(no view destroy, no chain destroy), and leaves every member — in
particular the view sequence and the chain handle — unchanged.  `Cleanup`
issues the device-idle wait again, destroys each stored view, and its last
call destroys the chain handle itself.  In both tiers the idle wait
precedes every other platform call. -/
theorem teardown_two_tiers (s : SwapchainState) :
    (CleanupFrameBuffersTrace s).head? = some PlatformCall.deviceWaitIdle ∧
    (∀ fb ∈ s.swapChainFramebuffers,
      PlatformCall.destroyFramebuffer fb ∈ CleanupFrameBuffersTrace s) ∧
    (∀ v : ImageViewInfo, PlatformCall.destroyImageView v ∉ CleanupFrameBuffersTrace s) ∧
    (∀ c : Nat, PlatformCall.destroySwapchain c ∉ CleanupFrameBuffersTrace s) ∧
    CleanupFrameBuffersState s = s ∧
    (CleanupTrace s).head? = some PlatformCall.deviceWaitIdle ∧
    (∀ v ∈ s.swapChainImageViews, PlatformCall.destroyImageView v ∈ CleanupTrace s) ∧
    (CleanupTrace s).getLast? = some (PlatformCall.destroySwapchain s.swapChain) ∧
    (∀ (i : Nat) (c : PlatformCall), (CleanupFrameBuffersTrace s)[i]? = some c →
      c ≠ PlatformCall.deviceWaitIdle →
      ∃ j, j < i ∧ (CleanupFrameBuffersTrace s)[j]? = some PlatformCall.deviceWaitIdle) ∧
    (∀ (i : Nat) (c : PlatformCall), (CleanupTrace s)[i]? = some c →
      c ≠ PlatformCall.deviceWaitIdle →
      ∃ j, j < i ∧ (CleanupTrace s)[j]? = some PlatformCall.deviceWaitIdle) := by
  refine ⟨rfl, ?_, ?_, ?_, rfl, rfl, ?_, ?_, head_waitIdle_precedes rfl,
    head_waitIdle_precedes rfl⟩
  · intro fb hfb
    exact List.mem_cons_of_mem _ (List.mem_map_of_mem _ hfb)
  · intro v
    simp [CleanupFrameBuffersTrace]
  · intro c
    simp [CleanupFrameBuffersTrace]
  · intro v hv
    exact List.mem_cons_of_mem _ (List.mem_append_left _ (List.mem_map_of_mem _ hv))
  · rw [CleanupTrace, ← List.cons_append, List.getLast?_concat]

/-- Witness for C1: on the concrete populated state, the framebuffer destroy
appears in the first tier, the view destroy in the second, and the idle
wait at index 0 precedes the framebuffer destroy at index 1. -/
theorem teardown_two_tiers_witness :
    PlatformCall.destroyFramebuffer sampleFramebuffer ∈
      CleanupFrameBuffersTrace sampleTeardownState ∧
    PlatformCall.destroyImageView sampleView ∈ CleanupTrace sampleTeardownState ∧
    ∃ j, j < 1 ∧
      (CleanupFrameBuffersTrace sampleTeardownState)[j]? =
        some PlatformCall.deviceWaitIdle := by
  obtain ⟨hA, hB, hC, hD, hE, hF, hG, hH, hI, hJ⟩ := teardown_two_tiers sampleTeardownState
  exact ⟨hB _ (by decide), hG _ (by decide),
    hI 1 (PlatformCall.destroyFramebuffer sampleFramebuffer) (by decide) (by decide)⟩

/-- No framebuffer destroy occurs in the `Cleanup` trace. -/
theorem destroyFramebuffer_not_mem_cleanupTrace (s : SwapchainState) (fb : FramebufferInfo) :
    PlatformCall.destroyFramebuffer fb ∉ CleanupTrace s := by
  simp [CleanupTrace]

/-- No view destroy occurs in the `CleanupFrameBuffers` trace. -/
theorem destroyImageView_not_mem_cfbTrace (s : SwapchainState) (v : ImageViewInfo) :
    PlatformCall.destroyImageView v ∉ CleanupFrameBuffersTrace s := by
  simp [CleanupFrameBuffersTrace]

/-- No chain destroy occurs in the `CleanupFrameBuffers` trace. -/
theorem destroySwapchain_not_mem_cfbTrace (s : SwapchainState) (c : Nat) :
    PlatformCall.destroySwapchain c ∉ CleanupFrameBuffersTrace s := by
  simp [CleanupFrameBuffersTrace]

/-- An element found at index `i` of `l₁ ++ l₂` that does not occur in `l₂`
lies in the first segment. -/
theorem getElem?_append_pos {α : Type} {l₁ l₂ : List α} {i : Nat} {a : α}
    (h : (l₁ ++ l₂)[i]? = some a) (ha : a ∉ l₂) : i < l₁.length := by
  by_contra hle
  push_neg at hle
  rw [List.getElem?_append, if_neg (not_lt.mpr hle)] at h
  exact ha (List.getElem?_mem h)

/-- An element found at index `i` of `l₁ ++ l₂` that does not occur in `l₁`
lies in the second segment. -/
theorem getElem?_append_ge {α : Type} {l₁ l₂ : List α} {i : Nat} {a : α}
    (h : (l₁ ++ l₂)[i]? = some a) (ha : a ∉ l₁) : l₁.length ≤ i := by
  by_contra hlt
  push_neg at hlt
  rw [List.getElem?_append, if_pos hlt] at h
  exact ha (List.getElem?_mem h)

/-- C10: in the destructor's trace (`CleanupFrameBuffers` then `Cleanup`),
every framebuffer destroy precedes every view destroy and the chain
destroy. -/
theorem destructor_framebuffers_first (s : SwapchainState) :
    (∀ (i j : Nat) (fb : FramebufferInfo) (v : ImageViewInfo),
      (destructorTrace s)[i]? = some (PlatformCall.destroyFramebuffer fb) →
      (destructorTrace s)[j]? = some (PlatformCall.destroyImageView v) → i < j) ∧
    (∀ (i j : Nat) (fb : FramebufferInfo) (c : Nat),
      (destructorTrace s)[i]? = some (PlatformCall.destroyFramebuffer fb) →
      (destructorTrace s)[j]? = some (PlatformCall.destroySwapchain c) → i < j) := by
  constructor
  · intro i j fb v hi hj
    simp only [destructorTrace, CleanupFrameBuffersState] at hi hj
    have h1 : i < (CleanupFrameBuffersTrace s).length :=
      getElem?_append_pos hi (destroyFramebuffer_not_mem_cleanupTrace s fb)
    have h2 : (CleanupFrameBuffersTrace s).length ≤ j :=
      getElem?_append_ge hj (destroyImageView_not_mem_cfbTrace s v)
    omega
  · intro i j fb c hi hj
    simp only [destructorTrace, CleanupFrameBuffersState] at hi hj
    have h1 : i < (CleanupFrameBuffersTrace s).length :=
      getElem?_append_pos hi (destroyFramebuffer_not_mem_cleanupTrace s fb)
    have h2 : (CleanupFrameBuffersTrace s).length ≤ j :=
      getElem?_append_ge hj (destroySwapchain_not_mem_cfbTrace s c)
    omega

/-- Witness for C10: on the concrete populated state the destructor trace is
idle-wait, framebuffer destroy, idle-wait, view destroy, chain destroy; the
framebuffer destroy at index 1 precedes the view destroy at index 3 and the
chain destroy at index 4. -/
theorem destructor_framebuffers_first_witness :
    (destructorTrace sampleTeardownState)[1]? =
      some (PlatformCall.destroyFramebuffer sampleFramebuffer) ∧
    (1 : Nat) < 3 ∧ (1 : Nat) < 4 := by
  have h := destructor_framebuffers_first sampleTeardownState
  exact ⟨by decide,
    h.1 1 3 sampleFramebuffer sampleView (by decide) (by decide),
    h.2 1 4 sampleFramebuffer 5 (by decide) (by decide)⟩

/-! ## Index alignment -/

/-- In every reachable state, the view sequence is parallel to the image
sequence: same length, and the view at index `i` was created from the image
at index `i` with the chain's stored format. -/
theorem reachable_views_aligned {s : SwapchainState} (hs : Reachable s) :
    s.swapChainImageViews.length = s.swapChainImages.length ∧
    ∀ (i img : Nat), s.swapChainImages[i]? = some img →
      s.swapChainImageViews[i]? = some { image := img, format := s.swapChainImageFormat } := by
  induction hs with
  | init =>
    refine ⟨rfl, fun i img hcontra => ?_⟩
    simp [initialState] at hcontra
  | create p w hh hre hc ih =>
    rw [Create] at hc
    cases hcf : ChooseSwapSurfaceFormat (QuerySwapChainSupport p).formats with
    | none => rw [hcf] at hc; cases hc
    | some sf =>
      rw [hcf] at hc
      cases hc
      refine ⟨by simp [CreateImageViews], fun i img hi => ?_⟩
      simp only [CreateImageViews] at hi ⊢
      simp [List.getElem?_map, hi]
  | framebuffers rp hre ih =>
    simpa [CreateFramebuffers] using ih

/-- C2 (amended): in every state reachable via `Create` and
`CreateFramebuffers`, the view at index `i` was created from the image at
index `i` with the chain's chosen format and the view sequence has the
image sequence's length; and in the state immediately following any
`CreateFramebuffers` call, the framebuffer sequence has that same length
and the framebuffer at index `i` has the view at index `i` as its sole
attachment.  (After a later `Create` the framebuffer sequence is stale:
`Create` neither clears nor rebuilds it — see the counterexample.) -/
theorem reachable_index_alignment (s : SwapchainState) (hs : Reachable s) :
    s.swapChainImageViews.length = s.swapChainImages.length ∧
    (∀ (i img : Nat), s.swapChainImages[i]? = some img →
      s.swapChainImageViews[i]? = some { image := img, format := s.swapChainImageFormat }) ∧
    (∀ rp : Nat,
      (CreateFramebuffers rp s).swapChainFramebuffers.length = s.swapChainImages.length ∧
      ∀ (i : Nat) (v : ImageViewInfo), s.swapChainImageViews[i]? = some v →
        (CreateFramebuffers rp s).swapChainFramebuffers[i]? =
          some { renderPass := rp, attachments := [v]
                 width := s.swapChainExtent.width
                 height := s.swapChainExtent.height }) := by
  obtain ⟨h1, h2⟩ := reachable_views_aligned hs
  refine ⟨h1, h2, fun rp => ⟨?_, fun i v hv => ?_⟩⟩
  · simp [CreateFramebuffers, h1]
  · simp [CreateFramebuffers, List.getElem?_map, hv]

/-- Witness for C2: after the first `Create`, view 0 is built from image
handle 10 with the chosen format, and after `CreateFramebuffers 7` the
framebuffer at index 0 has exactly that view as its sole attachment. -/
theorem reachable_index_alignment_witness :
    stateAfterFirstCreate.swapChainImageViews[0]? = some sampleView ∧
    (CreateFramebuffers 7 stateAfterFirstCreate).swapChainFramebuffers[0]? =
      some sampleFramebuffer := by
  have hre : Reachable stateAfterFirstCreate :=
    Reachable.create platformOneImage 800 600 Reachable.init (by decide)
  have h := reachable_index_alignment stateAfterFirstCreate hre
  exact ⟨h.2.1 0 10 (by decide), (h.2.2 7).2 0 sampleView (by decide)⟩

/-- Counterexample for C2 as stated: the state reached by `Create`,
`CreateFramebuffers`, then a second `Create` (the platform now allocating
two images) is reachable via the two operations, yet it violates the
claimed invariant — the framebuffer sequence is present but has length 1
while the image sequence has length 2, and the sole attachment of
framebuffer 0 is the old view, not the view at index 0. -/
theorem index_alignment_counterexample :
    Reachable stateStaleFramebuffers ∧
    ¬ indexAlignmentInvariant stateStaleFramebuffers ∧
    ¬ (∀ s : SwapchainState, Reachable s → indexAlignmentInvariant s) := by
  have hre : Reachable stateStaleFramebuffers := by
    have h1 : Reachable stateAfterFirstCreate :=
      Reachable.create platformOneImage 800 600 Reachable.init (by decide)
    have h2 : Reachable (CreateFramebuffers 7 stateAfterFirstCreate) :=
      Reachable.framebuffers 7 h1
    exact Reachable.create platformTwoImages 800 600 h2 (by decide)
  have hni : ¬ indexAlignmentInvariant stateStaleFramebuffers := by
    intro hbad
    have hlen := (hbad.2.2 (by decide)).1
    exact absurd hlen (by decide)
  exact ⟨hre, hni, fun hall => hni (hall _ hre)⟩

/-! ## Result checking of platform calls -/

/-- Counterexample for C8 as stated: the first `vkGetSwapchainImagesKHR`
call in `Create` (Swapchain.cpp:65) returns a `VkResult` yet is not routed
through `GlfwVulkan::ErrorCheck`, so not every platform call site has its
result checked. -/
theorem error_check_counterexample :
    ({ func := .vkGetSwapchainImagesKHR, callerMethod := "Create", line := 65,
       yieldsResult := true, checkedByErrorCheck := false } : CallSite) ∈
      swapchainCallSites ∧
    ¬ (∀ cs ∈ swapchainCallSites, cs.checkedByErrorCheck = true) := by
  decide

/-- C8 (amended): exactly the three creation calls — `vkCreateSwapchainKHR`,
`vkCreateImageView`, `vkCreateFramebuffer` — are routed through the shared
error-check utility; every other Vulkan call site in the component,
including the result-returning query calls and the device-idle waits,
leaves its result unchecked (the `vkDestroy*` calls return no result). -/
theorem error_check_exactly_creation_calls :
    ∀ cs ∈ swapchainCallSites,
      cs.checkedByErrorCheck = true ↔
        (cs.func = .vkCreateSwapchainKHR ∨ cs.func = .vkCreateImageView ∨
          cs.func = .vkCreateFramebuffer) := by
  decide

/-- Witness for C8 (amended): the `vkCreateSwapchainKHR` site is checked,
and the `vkDeviceWaitIdle` site in `Cleanup` is not. -/
theorem error_check_exactly_creation_calls_witness :
    ({ func := .vkCreateSwapchainKHR, callerMethod := "Create", line := 62,
       yieldsResult := true, checkedByErrorCheck := true } : CallSite).checkedByErrorCheck
      = true ∧
    ¬ ({ func := .vkDeviceWaitIdle, callerMethod := "Cleanup", line := 104,
         yieldsResult := true, checkedByErrorCheck := false } : CallSite).checkedByErrorCheck
      = true := by
  constructor
  · exact (error_check_exactly_creation_calls _ (by decide)).mpr (Or.inl rfl)
  · intro hcontra
    have := (error_check_exactly_creation_calls _ (by decide)).mp hcontra
    rcases this with h | h | h <;> cases h

end Flounder
